import Mathlib

/-!
Verification of the gret mesh-retargeting core (`src/mesh/retarget_mesh.py`
and the RBF engine it drives).

The orchestrator `GRET_OT_retarget_mesh.execute` is embedded from the source.
The RBF helper module (`get_mesh_points`, `get_weight_matrix`,
`get_distance_matrix`, `set_mesh_points`, the kernel table) is part of the
repository but not among the provided sources; those helpers are modelled
from the specification, as marked in their doc comments.

Numeric conventions: the Python code computes with floats; the shallow
embedding uses exact rationals, so "within numerical tolerance" statements
become exact equalities.  A radial kernel composed with the Euclidean
distance (and the per-kernel radius scale) is abstracted as a function `k`
of the two points, since the square root and transcendental kernels have no
exact rational counterpart; all statements below hold for every such `k`,
hence for every supported kernel.
-/

namespace Gret

/-- Modelled from the spec: `get_distance_matrix` of the missing `rbf`
module, section 4.4 step 1: `D[i,j] = φ(dist(query i, src j))`; the kernel
`φ`, the Euclidean distance and the scaled radius are abstracted together
as `k`. -/
def get_distance_matrix {m n : ℕ} (pts : Matrix (Fin m) (Fin 3) ℚ)
    (src : Matrix (Fin n) (Fin 3) ℚ)
    (k : (Fin 3 → ℚ) → (Fin 3 → ℚ) → ℚ) : Matrix (Fin m) (Fin n) ℚ :=
  Matrix.of fun i j => k (pts i) (src j)

/-- The evaluation matrix built at retarget_mesh.py lines 148-150:
`h = np.bmat([[dist, identity, pts]])`, i.e. the distance block followed by
a column of ones followed by the three coordinate columns. -/
def evalH {m n : ℕ} (pts : Matrix (Fin m) (Fin 3) ℚ)
    (src : Matrix (Fin n) (Fin 3) ℚ)
    (k : (Fin 3 → ℚ) → (Fin 3 → ℚ) → ℚ) : Matrix (Fin m) (Fin n ⊕ Fin 4) ℚ :=
  Matrix.of fun i => Sum.elim (fun j => get_distance_matrix pts src k i j)
    (Fin.cons 1 (pts i))

/-- The per-target evaluation of retarget_mesh.py lines 148-151:
`new_pts = np.dot(h, weights)`. -/
def retarget_eval {m n : ℕ} (pts : Matrix (Fin m) (Fin 3) ℚ)
    (src : Matrix (Fin n) (Fin 3) ℚ)
    (k : (Fin 3 → ℚ) → (Fin 3 → ℚ) → ℚ)
    (w : Matrix (Fin n ⊕ Fin 4) (Fin 3) ℚ) : Matrix (Fin m) (Fin 3) ℚ :=
  evalH pts src k * w

/-- Modelled from the spec: the RBF kernel matrix of `get_weight_matrix`,
section 4.3 step 1: `K[i,j] = φ(dist(src i, src j))`. -/
def rbfK {n : ℕ} (src : Matrix (Fin n) (Fin 3) ℚ)
    (k : (Fin 3 → ℚ) → (Fin 3 → ℚ) → ℚ) : Matrix (Fin n) (Fin n) ℚ :=
  Matrix.of fun i j => k (src i) (src j)

/-- Modelled from the spec: the polynomial block of `get_weight_matrix`,
section 4.3 step 2: `P = [1, x, y, z]` per source point. -/
def rbfP {n : ℕ} (src : Matrix (Fin n) (Fin 3) ℚ) : Matrix (Fin n) (Fin 4) ℚ :=
  Matrix.of fun i => ![1, src i 0, src i 1, src i 2]

/-- Modelled from the spec: the augmented system matrix of
`get_weight_matrix`, section 4.3 step 3:
`A = [[K, P], [Pᵗ, 0]]` of shape `(N+4) × (N+4)`. -/
def rbfA {n : ℕ} (src : Matrix (Fin n) (Fin 3) ℚ)
    (k : (Fin 3 → ℚ) → (Fin 3 → ℚ) → ℚ) :
    Matrix (Fin n ⊕ Fin 4) (Fin n ⊕ Fin 4) ℚ :=
  Matrix.fromBlocks (rbfK src k) (rbfP src) (rbfP src).transpose 0

/-- Modelled from the spec: the right-hand side of `get_weight_matrix`,
section 4.3 step 4: `B = [[dst], [0]]` of shape `(N+4) × 3`. -/
def rbfB {n : ℕ} (dst : Matrix (Fin n) (Fin 3) ℚ) :
    Matrix (Fin n ⊕ Fin 4) (Fin 3) ℚ :=
  Matrix.of (Sum.elim (fun i => dst i) (fun _ _ => 0))

/-- Modelled from the spec: success of the weight solve, section 4.3
step 5: the weight matrix `W` solves `A * W = B` exactly. -/
def solveSucceeds {n : ℕ} (src dst : Matrix (Fin n) (Fin 3) ℚ)
    (k : (Fin 3 → ℚ) → (Fin 3 → ℚ) → ℚ)
    (w : Matrix (Fin n ⊕ Fin 4) (Fin 3) ℚ) : Prop :=
  rbfA src k * w = rbfB dst

/-- From the words of the spec, section 4.4 step 2: the polynomial block
`Q = [1, x, y, z]` built per query point. -/
def polyBlockSpec {m : ℕ} (pts : Matrix (Fin m) (Fin 3) ℚ) :
    Matrix (Fin m) (Fin 4) ℚ :=
  Matrix.of fun i => ![1, pts i 0, pts i 1, pts i 2]

/-- From the words of the spec, section 4.4 step 3: `H = [D | Q]`, the
`M × N` kernel distance matrix concatenated with the polynomial block, in
that column order. -/
def specH {m n : ℕ} (pts : Matrix (Fin m) (Fin 3) ℚ)
    (src : Matrix (Fin n) (Fin 3) ℚ)
    (k : (Fin 3 → ℚ) → (Fin 3 → ℚ) → ℚ) : Matrix (Fin m) (Fin n ⊕ Fin 4) ℚ :=
  Matrix.of fun i => Sum.elim (fun j => get_distance_matrix pts src k i j)
    (fun j => polyBlockSpec pts i j)

lemma evalH_eq_specH {m n : ℕ} (pts : Matrix (Fin m) (Fin 3) ℚ)
    (src : Matrix (Fin n) (Fin 3) ℚ)
    (k : (Fin 3 → ℚ) → (Fin 3 → ℚ) → ℚ) : evalH pts src k = specH pts src k := by
  funext i j
  rcases j with j | j
  · rfl
  · fin_cases j <;> rfl

lemma evalH_inl_eq_rbfA {n : ℕ} (src : Matrix (Fin n) (Fin 3) ℚ)
    (k : (Fin 3 → ℚ) → (Fin 3 → ℚ) → ℚ) (i : Fin n) (j : Fin n ⊕ Fin 4) :
    evalH src src k i j = rbfA src k (Sum.inl i) j := by
  rcases j with j | j
  · rfl
  · fin_cases j <;> rfl

/-- C1: if the weight solve succeeds with weight matrix `W`, evaluating the
fitted field exactly at the `N` source points reproduces `dst` (exactly,
over the rationals). -/
theorem retarget_eval_interpolates {n : ℕ}
    (k : (Fin 3 → ℚ) → (Fin 3 → ℚ) → ℚ)
    (src dst : Matrix (Fin n) (Fin 3) ℚ)
    (w : Matrix (Fin n ⊕ Fin 4) (Fin 3) ℚ)
    (h : solveSucceeds src dst k w) :
    retarget_eval src src k w = dst := by
  funext i c
  have hrow : (rbfA src k * w) (Sum.inl i) c = rbfB dst (Sum.inl i) c := by
    rw [h]
  rw [Matrix.mul_apply] at hrow
  show (evalH src src k * w) i c = dst i c
  rw [Matrix.mul_apply]
  calc ∑ j, evalH src src k i j * w j c
      = ∑ j, rbfA src k (Sum.inl i) j * w j c :=
        Finset.sum_congr rfl (fun j _ => by rw [evalH_inl_eq_rbfA])
    _ = rbfB dst (Sum.inl i) c := hrow
    _ = dst i c := rfl

/-- Witness for C1 at a concrete instance: one source point at the origin,
destination equal to it, constant kernel, zero weights. -/
theorem retarget_eval_interpolates_witness :
    solveSucceeds (n := 1) (Matrix.of fun _ => ![0, 0, 0])
      (Matrix.of fun _ => ![0, 0, 0]) (fun _ _ => 1) 0 ∧
    retarget_eval (m := 1) (n := 1) (Matrix.of fun _ => ![0, 0, 0])
      (Matrix.of fun _ => ![0, 0, 0]) (fun _ _ => 1) 0 =
      Matrix.of fun _ => ![0, 0, 0] := by
  have hs : solveSucceeds (n := 1) (Matrix.of fun _ => ![0, 0, 0])
      (Matrix.of fun _ => ![0, 0, 0]) (fun _ _ => 1) 0 := by
    unfold solveSucceeds
    funext i c
    rcases i with i | i
    · rw [Matrix.mul_apply]
      simp [rbfB]
      fin_cases c <;> rfl
    · rw [Matrix.mul_apply]
      simp [rbfB]
  exact ⟨hs, retarget_eval_interpolates (fun _ _ => 1) _ _ 0 hs⟩

/-- C2: the evaluator computes the displaced positions as `H · W` with
`H = [D | Q]`, `Q = [1, x, y, z]` per query point, in that column order,
yielding an `M × 3` result. -/
theorem retarget_eval_is_specH_mul {m n : ℕ}
    (pts : Matrix (Fin m) (Fin 3) ℚ) (src : Matrix (Fin n) (Fin 3) ℚ)
    (k : (Fin 3 → ℚ) → (Fin 3 → ℚ) → ℚ)
    (w : Matrix (Fin n ⊕ Fin 4) (Fin 3) ℚ) :
    retarget_eval pts src k w = specH pts src k * w := by
  rw [retarget_eval, evalH_eq_specH]

/-! List-level embedding of the orchestrator `GRET_OT_retarget_mesh.execute`
and of the sampling helper it calls. -/

/-- A 3D point with exact rational coordinates. -/
abbrev Pt := ℚ × ℚ × ℚ

/-- Helper for the stride decimation: keeps the head when the skip counter
is zero and resets it to `s - 1`, else decrements the counter. -/
def everyNthAux {α : Type} : List α → ℕ → ℕ → List α
  | [], _, _ => []
  | p :: t, s, 0 => p :: everyNthAux t s (s - 1)
  | _ :: t, s, c + 1 => everyNthAux t s c

/-- Modelled from the spec, section 4.2: the stride decimation step of
`get_mesh_points` — stride selects every s-th eligible point by sequential
index order. -/
def everyNth {α : Type} (l : List α) (s : ℕ) : List α := everyNthAux l s 0

lemma everyNthAux_drop {α : Type} (s : ℕ) :
    ∀ (l : List α) (c : ℕ), everyNthAux l s c = everyNth (l.drop c) s := by
  intro l
  induction l with
  | nil => intro c; cases c <;> rfl
  | cons a t ih =>
    intro c
    cases c with
    | zero => rfl
    | succ c =>
      show everyNthAux t s c = everyNth (t.drop c) s
      exact ih c

lemma everyNth_cons {α : Type} (s : ℕ) (p : α) (t : List α) :
    everyNth (p :: t) s = p :: everyNth (t.drop (s - 1)) s := by
  show everyNthAux (p :: t) s 0 = _
  simp only [everyNthAux]
  rw [everyNthAux_drop]

/-- Modelled from the spec, section 4.2: the mask step of
`get_mesh_points` — only points where the mask is true are eligible. -/
def applyMask (verts : List Pt) (mask : Option (List Bool)) : List Pt :=
  match mask with
  | none => verts
  | some m => ((verts.zip m).filter (fun vb => vb.2)).map (fun vb => vb.1)

/-- Reflection across the X symmetry plane. -/
def mirrorX (p : Pt) : Pt := (-p.1, p.2.1, p.2.2)

/-- Modelled from the spec, section 4.2: the indices recorded by a fresh
mirror accumulator — the sampled points whose coordinate on the mirror
axis is non-zero. -/
def mirrorIdxs (l : List Pt) : List ℕ :=
  (List.range l.length).filter (fun i => decide ((l.getD i (0, 0, 0)).1 ≠ 0))

/-- Modelled from the spec, section 4.2: `get_mesh_points` of the missing
`rbf` module.  Applies the optional mask, then the stride decimation, then
mirror-doubling driven by the accumulator: a fresh (empty) accumulator is
filled with the indices of the points to mirror, a reused accumulator
replays the recorded indices; the mirrored reflections are appended after
the base points.  The optional coordinate transform of the real helper is
modelled by the vertex list itself.  Returns the point set and the updated
accumulator. -/
def get_mesh_points (verts : List Pt) (mask : Option (List Bool)) (stride : ℕ)
    (xMirror : Option (List ℕ)) : List Pt × Option (List ℕ) :=
  let strided := everyNth (applyMask verts mask) stride
  match xMirror with
  | none => (strided, none)
  | some acc =>
    let idxs := if acc.isEmpty then mirrorIdxs strided else acc
    (strided ++ idxs.map (fun i => mirrorX (strided.getD i (0, 0, 0))), some idxs)

/-- retarget_mesh.py line 111: `num_masked = sum(mask) if mask else
num_vertices`; an absent mask and an empty mask list both fall back to the
vertex count (Python falsiness). -/
def numMasked (mask : Option (List Bool)) (numVerts : ℕ) : ℕ :=
  match mask with
  | some m => if m.isEmpty then numVerts else m.count true
  | none => numVerts

/-- Python `ceil(a / b)` on exact arithmetic (retarget_mesh.py line 112). -/
def pyCeilDiv (a b : ℕ) : ℕ := Nat.ceil ((a : ℚ) / (b : ℚ))

/-- retarget_mesh.py line 110: the mask is the per-vertex selection of the
source mesh when only_selection is set, else absent. -/
def retargetMask (only_selection : Bool) (sel : List Bool) : Option (List Bool) :=
  if only_selection then some sel else none

/-- retarget_mesh.py lines 106-112: the vertex cap picked by the quality
mode and the stride derived from it. -/
def retargetStride (high_quality : Bool) (capLow capHigh : ℕ)
    (mask : Option (List Bool)) (numVerts : ℕ) : ℕ :=
  pyCeilDiv (numMasked mask numVerts) (if high_quality then capHigh else capLow)

/-- retarget_mesh.py lines 119-125: the paired sampling of the source and
destination point sets, sharing one mirror accumulator; an accumulator left
empty by the source sample is reset to None before the destination
sample. -/
def samplePair (use_mirror_x : Bool) (mask : Option (List Bool)) (stride : ℕ)
    (srcVerts dstVerts : List Pt) : List Pt × List Pt :=
  let x0 : Option (List ℕ) := if use_mirror_x then some [] else none
  let s1 := get_mesh_points srcVerts mask stride x0
  let x1 : Option (List ℕ) :=
    match s1.2 with
    | some a => if a.isEmpty then none else some a
    | none => none
  let s2 := get_mesh_points dstVerts mask stride x1
  (s1.1, s2.1)

/-- retarget_mesh.py lines 126-127: the correspondence pair, swapped when
invert is requested. -/
def corrPair (use_mirror_x invert : Bool) (mask : Option (List Bool))
    (stride : ℕ) (srcVerts dstVerts : List Pt) : List Pt × List Pt :=
  let pr := samplePair use_mirror_x mask stride srcVerts dstVerts
  if invert then (pr.2, pr.1) else pr

/-- One row of the product `h · weights` of retarget_mesh.py line 151: the
row of `h` as a list of scalars against the weight rows as points. -/
def mulRowPt (h : List ℚ) (w : List Pt) : Pt :=
  ((h.zip w).map (fun aw => aw.1 • aw.2)).foldr (· + ·) (0, 0, 0)

/-- retarget_mesh.py lines 148-151 at list level: the row of
`h = [dist | 1 | pts]` for each dependent point, multiplied by the weight
matrix (given as its list of rows). -/
def evalNewPts (pts src_pts : List Pt) (k : Pt → Pt → ℚ) (w : List Pt) :
    List Pt :=
  pts.map (fun p => mulRowPt (src_pts.map (fun q => k p q) ++ [1, p.1, p.2.1, p.2.2]) w)

/-- A host mesh object as the operator sees it: an identity, whether it is
a mesh, its vertex positions (in the evaluation frame) and its per-vertex
selection flags. -/
structure MeshObj where
  oid : ℕ
  isMesh : Bool
  verts : List Pt
  sel : List Bool
  deriving DecidableEq

/-- Operator return status. -/
inductive OpResult
  | CANCELLED
  | FINISHED
  deriving DecidableEq

/-- Report severity of `Operator.report`. -/
inductive ReportLevel
  | ERROR
  | WARNING
  deriving DecidableEq

/-- Everything observable about one invocation: the return status, the
reports issued, and the write-backs performed by `set_mesh_points` as
pairs of object identity and new point list. -/
structure ExecOutcome where
  result : OpResult
  reports : List (ReportLevel × String)
  writes : List (ℕ × List Pt)
  deriving DecidableEq

/-- retarget_mesh.py lines 133-159: the dependent-target loop.  Skips
non-mesh objects and the source and destination objects, then skips
targets with zero points, and otherwise evaluates and writes back. -/
def retargetWrites (k : Pt → Pt → ℚ) (w : List Pt) (srcOid dstOid : ℕ)
    (src_pts : List Pt) (selected : List MeshObj) : List (ℕ × List Pt) :=
  selected.filterMap (fun obj =>
    if obj.isMesh = false ∨ obj.oid = srcOid ∨ obj.oid = dstOid then none
    else if obj.verts.length = 0 then none
    else some (obj.oid, evalNewPts obj.verts src_pts k w))

/-- Embedding of `GRET_OT_retarget_mesh.execute` (retarget_mesh.py lines
87-161).  `get_weight_matrix` is not among the provided sources, so the
solve is abstracted as the `solver` argument returning the weight rows or
None; the kernel composed with the distance and the radius scale is the
argument `k`.  When use_shape_key is set the caller passes the source
object with the shape-key positions as the destination.  The shape-key
naming of the write-back does not affect which objects are written and is
not modelled. -/
def execute (only_selection high_quality use_mirror_x invert : Bool)
    (capLow capHigh : ℕ) (k : Pt → Pt → ℚ)
    (solver : List Pt → List Pt → Option (List Pt))
    (src_obj dst_obj : MeshObj) (selected : List MeshObj) : ExecOutcome :=
  let num_vertices := src_obj.verts.length
  if num_vertices = 0 then
    ⟨.CANCELLED, [(.ERROR, "Source mesh has no vertices.")], []⟩
  else if num_vertices ≠ dst_obj.verts.length then
    ⟨.CANCELLED,
      [(.ERROR, "Source and destination meshes must have equal number of vertices.")], []⟩
  else
    let mask := retargetMask only_selection src_obj.sel
    let num_masked := numMasked mask num_vertices
    let stride := retargetStride high_quality capLow capHigh mask num_vertices
    if num_masked = 0 then
      ⟨.CANCELLED, [(.ERROR, "Source mesh has no vertices selected.")], []⟩
    else
      let pair := corrPair use_mirror_x invert mask stride src_obj.verts dst_obj.verts
      match solver pair.1 pair.2 with
      | none =>
        ⟨.CANCELLED, [(.ERROR, "Failed to retarget. Try a different function or radius.")], []⟩
      | some w =>
        ⟨.FINISHED, [],
          retargetWrites k w src_obj.oid dst_obj.oid pair.1 selected⟩

/-! Arithmetic of the stride and the sampled count. -/

lemma pyCeilDiv_eq (a b : ℕ) (hb : 1 ≤ b) : pyCeilDiv a b = (a + b - 1) / b := by
  have hb0 : 0 < b := hb
  have hbq : (0 : ℚ) < b := by exact_mod_cast hb0
  rcases Nat.eq_zero_or_pos a with ha | ha
  · subst ha
    rw [show (0 + b - 1) / b = 0 from Nat.div_eq_of_lt (by omega)]
    simp [pyCeilDiv]
  · have hn : (a + b - 1) / b ≠ 0 := by
      have hle : b ≤ a + b - 1 := by omega
      have := (Nat.one_le_div_iff hb0).mpr hle
      omega
    rw [pyCeilDiv, Nat.ceil_eq_iff hn]
    have heq : (a + b - 1) / b = (a - 1) / b + 1 := by
      have h1 : a + b - 1 = (a - 1) + b := by omega
      rw [h1, Nat.add_div_right _ hb0]
    constructor
    · rw [heq]
      simp only [Nat.add_sub_cancel]
      rw [lt_div_iff₀ hbq]
      have h2 : (a - 1) / b * b ≤ a - 1 := Nat.div_mul_le_self _ _
      have h3 : (((a - 1) / b : ℕ) : ℚ) * b ≤ ((a - 1 : ℕ) : ℚ) := by
        exact_mod_cast h2
      have h4 : ((a - 1 : ℕ) : ℚ) < a := by
        have : (a - 1 : ℕ) < a := by omega
        exact_mod_cast this
      linarith
    · rw [div_le_iff₀ hbq, heq]
      have h2 : a - 1 < (a - 1) / b * b + b := Nat.lt_div_mul_add hb0
      have h3 : a ≤ ((a - 1) / b + 1) * b := by
        rw [Nat.succ_mul]
        omega
      exact_mod_cast h3

lemma everyNth_length_aux {α : Type} (s : ℕ) (hs : 1 ≤ s) :
    ∀ n (l : List α), l.length = n → (everyNth l s).length = (n + s - 1) / s := by
  intro n
  induction n using Nat.strong_induction_on with
  | _ n ih =>
    intro l hn
    cases l with
    | nil =>
      simp only [List.length_nil] at hn
      subst hn
      rw [show (0 + s - 1) / s = 0 from Nat.div_eq_of_lt (by omega)]
      simp [everyNth, everyNthAux]
    | cons p t =>
      simp only [List.length_cons] at hn
      have hdrop : (t.drop (s - 1)).length = t.length - (s - 1) :=
        List.length_drop _ _
      have hlt : (t.drop (s - 1)).length < n := by omega
      rw [everyNth_cons]
      simp only [List.length_cons]
      rw [ih _ hlt _ rfl, hdrop]
      rcases le_or_lt (s - 1) t.length with hL | hL
      · have h1 : t.length - (s - 1) + s - 1 = t.length := by omega
        have h2 : n + s - 1 = t.length + s := by omega
        rw [h1, h2, Nat.add_div_right _ (show 0 < s by omega)]
      · have h1 : t.length - (s - 1) = 0 := by omega
        have h2 : n + s - 1 = t.length + s := by omega
        rw [h1, h2, Nat.add_div_right _ (show 0 < s by omega),
          Nat.div_eq_of_lt (show 0 + s - 1 < s by omega),
          Nat.div_eq_of_lt (show t.length < s by omega)]

lemma everyNth_length {α : Type} (s : ℕ) (hs : 1 ≤ s) (l : List α) :
    (everyNth l s).length = (l.length + s - 1) / s :=
  everyNth_length_aux s hs _ l rfl

lemma everyNth_length_eq {α : Type} (s : ℕ) (hs : 1 ≤ s) (l1 l2 : List α)
    (h : l1.length = l2.length) :
    (everyNth l1 s).length = (everyNth l2 s).length := by
  rw [everyNth_length s hs, everyNth_length s hs, h]

/-- C4: whenever at least one point is eligible, the stride used by the
operator is the ceiling of the eligible count over the cap picked by the
quality mode, where the eligible count is the number of selected vertices
when the selection mask is in effect and the full vertex count otherwise;
equivalently it is the rounding-up integer division. -/
theorem retargetStride_eq_ceil (high_quality only_selection : Bool)
    (capLow capHigh : ℕ) (sel : List Bool) (numVerts : ℕ)
    (hsel : only_selection = true → sel ≠ [])
    (hcap : 1 ≤ (if high_quality then capHigh else capLow))
    (hE : 1 ≤ (if only_selection then sel.count true else numVerts)) :
    retargetStride high_quality capLow capHigh
        (retargetMask only_selection sel) numVerts =
      Nat.ceil (((if only_selection then sel.count true else numVerts : ℕ) : ℚ) /
        ((if high_quality then capHigh else capLow : ℕ) : ℚ)) ∧
    retargetStride high_quality capLow capHigh
        (retargetMask only_selection sel) numVerts =
      ((if only_selection then sel.count true else numVerts) +
          (if high_quality then capHigh else capLow) - 1) /
        (if high_quality then capHigh else capLow) := by
  have hmask : numMasked (retargetMask only_selection sel) numVerts =
      (if only_selection then sel.count true else numVerts) := by
    cases only_selection with
    | false => simp [retargetMask, numMasked]
    | true =>
      have hne : sel ≠ [] := hsel rfl
      have hfalse : sel.isEmpty = false := by
        cases sel with
        | nil => exact absurd rfl hne
        | cons a t => rfl
      simp [retargetMask, numMasked, hfalse]
  constructor
  · rw [retargetStride, hmask]
    rfl
  · rw [retargetStride, hmask]
    exact pyCeilDiv_eq _ _ hcap

/-- Witness for C4: three selected vertices under a cap of two give
stride two. -/
theorem retargetStride_eq_ceil_witness :
    ((true : Bool) = true → [true, true, true] ≠ ([] : List Bool)) ∧
    1 ≤ (if (false : Bool) then 9 else 2) ∧
    1 ≤ (if (true : Bool) then [true, true, true].count true else 3) ∧
    (retargetStride false 2 9 (retargetMask true [true, true, true]) 3 =
        Nat.ceil (((if (true : Bool) then [true, true, true].count true else 3 : ℕ) : ℚ) /
          ((if (false : Bool) then 9 else 2 : ℕ) : ℚ)) ∧
      retargetStride false 2 9 (retargetMask true [true, true, true]) 3 =
        ((if (true : Bool) then [true, true, true].count true else 3) +
            (if (false : Bool) then 9 else 2) - 1) /
          (if (false : Bool) then 9 else 2)) :=
  ⟨fun _ => by decide, by decide, by decide,
    retargetStride_eq_ceil false true 2 9 [true, true, true] 3
      (fun _ => by decide) (by decide) (by decide)⟩

/-- C9: for an eligible count of at least one and a stride of at least
one, the sampled count of the stride decimation equals the ceiling of the
count over the stride; it does not increase when the stride grows, and it
stays at least one. -/
theorem everyNth_count_ceil {α : Type} (l : List α) (s t : ℕ)
    (hs : 1 ≤ s) (hst : s ≤ t) (hl : 1 ≤ l.length) :
    (everyNth l s).length = Nat.ceil ((l.length : ℚ) / (s : ℚ)) ∧
    (everyNth l t).length ≤ (everyNth l s).length ∧
    1 ≤ (everyNth l s).length := by
  have ht : 1 ≤ t := le_trans hs hst
  have h1 := everyNth_length s hs l
  have h2 := everyNth_length t ht l
  refine ⟨?_, ?_, ?_⟩
  · rw [h1, show Nat.ceil ((l.length : ℚ) / (s : ℚ)) = pyCeilDiv l.length s from rfl,
      pyCeilDiv_eq _ _ hs]
  · rw [h1, h2]
    have es : l.length + s - 1 = (l.length - 1) + s := by omega
    have et : l.length + t - 1 = (l.length - 1) + t := by omega
    rw [es, et, Nat.add_div_right _ (show 0 < s by omega),
      Nat.add_div_right _ (show 0 < t by omega)]
    have hmono : (l.length - 1) / t ≤ (l.length - 1) / s :=
      Nat.div_le_div_left hst (by omega)
    omega
  · rw [h1, Nat.one_le_div_iff (show 0 < s by omega)]
    omega

/-- Witness for C9: five points at stride two give three samples, stride
three gives two. -/
theorem everyNth_count_ceil_witness :
    1 ≤ 2 ∧ 2 ≤ 3 ∧
      1 ≤ ([10, 11, 12, 13, 14] : List ℚ).length ∧
      ((everyNth ([10, 11, 12, 13, 14] : List ℚ) 2).length =
          Nat.ceil ((([10, 11, 12, 13, 14] : List ℚ).length : ℚ) / (2 : ℚ)) ∧
        (everyNth ([10, 11, 12, 13, 14] : List ℚ) 3).length ≤
          (everyNth ([10, 11, 12, 13, 14] : List ℚ) 2).length ∧
        1 ≤ (everyNth ([10, 11, 12, 13, 14] : List ℚ) 2).length) :=
  ⟨by decide, by decide, by decide,
    everyNth_count_ceil ([10, 11, 12, 13, 14] : List ℚ) 2 3
      (by decide) (by decide) (by decide)⟩

/-! Control flow of the orchestrator. -/

/-- C6: a source with zero points cancels with the empty-source error
before anything is sampled, solved or evaluated — the outcome is the same
for every solver and every selection, and nothing is written back. -/
theorem execute_empty_source (os hq mx inv : Bool) (cl ch : ℕ)
    (k : Pt → Pt → ℚ) (solver : List Pt → List Pt → Option (List Pt))
    (src_obj dst_obj : MeshObj) (selected : List MeshObj)
    (h : src_obj.verts.length = 0) :
    execute os hq mx inv cl ch k solver src_obj dst_obj selected =
      ⟨.CANCELLED, [(.ERROR, "Source mesh has no vertices.")], []⟩ := by
  simp [execute, h]

/-- Witness for C6: a source mesh with no vertices. -/
theorem execute_empty_source_witness :
    (MeshObj.mk 0 true [] []).verts.length = 0 ∧
    execute false false false false 1 1 (fun _ _ => 0) (fun _ _ => some [])
        ⟨0, true, [], []⟩ ⟨1, true, [(0, 0, 0)], []⟩ [⟨2, true, [(1, 1, 1)], []⟩] =
      ⟨.CANCELLED, [(.ERROR, "Source mesh has no vertices.")], []⟩ :=
  ⟨by decide,
    execute_empty_source false false false false 1 1 (fun _ _ => 0)
      (fun _ _ => some []) ⟨0, true, [], []⟩ ⟨1, true, [(0, 0, 0)], []⟩
      [⟨2, true, [(1, 1, 1)], []⟩] (by decide)⟩

/-- C7: unequal source and destination cardinalities cancel with the
count-mismatch error before the solve — the outcome is the same for every
solver, and nothing is written back. -/
theorem execute_count_mismatch (os hq mx inv : Bool) (cl ch : ℕ)
    (k : Pt → Pt → ℚ) (solver : List Pt → List Pt → Option (List Pt))
    (src_obj dst_obj : MeshObj) (selected : List MeshObj)
    (h0 : src_obj.verts.length ≠ 0)
    (h1 : src_obj.verts.length ≠ dst_obj.verts.length) :
    execute os hq mx inv cl ch k solver src_obj dst_obj selected =
      ⟨.CANCELLED,
        [(.ERROR, "Source and destination meshes must have equal number of vertices.")],
        []⟩ := by
  simp [execute, h0, h1]

/-- Witness for C7: one source vertex against two destination vertices. -/
theorem execute_count_mismatch_witness :
    (MeshObj.mk 0 true [(0, 0, 0)] []).verts.length ≠ 0 ∧
    (MeshObj.mk 0 true [(0, 0, 0)] []).verts.length ≠
      (MeshObj.mk 1 true [(0, 0, 0), (1, 1, 1)] []).verts.length ∧
    execute false false false false 1 1 (fun _ _ => 0) (fun _ _ => some [])
        ⟨0, true, [(0, 0, 0)], []⟩ ⟨1, true, [(0, 0, 0), (1, 1, 1)], []⟩
        [⟨2, true, [(1, 1, 1)], []⟩] =
      ⟨.CANCELLED,
        [(.ERROR, "Source and destination meshes must have equal number of vertices.")],
        []⟩ :=
  ⟨by decide, by decide,
    execute_count_mismatch false false false false 1 1 (fun _ _ => 0)
      (fun _ _ => some []) ⟨0, true, [(0, 0, 0)], []⟩
      ⟨1, true, [(0, 0, 0), (1, 1, 1)], []⟩ [⟨2, true, [(1, 1, 1)], []⟩]
      (by decide) (by decide)⟩

/-- C3: when the weight solve fails on the sampled correspondence pair,
the whole invocation cancels with the error suggesting a different kernel
function or radius, nothing is written back, and no dependent target is
evaluated — the outcome is the same for every selection list. -/
theorem execute_solve_failure (os hq mx inv : Bool) (cl ch : ℕ)
    (k : Pt → Pt → ℚ) (solver : List Pt → List Pt → Option (List Pt))
    (src_obj dst_obj : MeshObj) (selected : List MeshObj)
    (h0 : src_obj.verts.length ≠ 0)
    (h1 : src_obj.verts.length = dst_obj.verts.length)
    (h2 : numMasked (retargetMask os src_obj.sel) src_obj.verts.length ≠ 0)
    (hs : solver
        (corrPair mx inv (retargetMask os src_obj.sel)
          (retargetStride hq cl ch (retargetMask os src_obj.sel)
            src_obj.verts.length)
          src_obj.verts dst_obj.verts).1
        (corrPair mx inv (retargetMask os src_obj.sel)
          (retargetStride hq cl ch (retargetMask os src_obj.sel)
            src_obj.verts.length)
          src_obj.verts dst_obj.verts).2 = none) :
    execute os hq mx inv cl ch k solver src_obj dst_obj selected =
      ⟨.CANCELLED,
        [(.ERROR, "Failed to retarget. Try a different function or radius.")],
        []⟩ := by
  rw [execute]
  have h1x : ¬(src_obj.verts.length ≠ dst_obj.verts.length) := fun hc => hc h1
  simp only [if_neg h0, if_neg h1x, if_neg h2, hs]

/-- Witness for C3: a solver that always fails. -/
theorem execute_solve_failure_witness :
    (MeshObj.mk 0 true [(0, 0, 0)] []).verts.length ≠ 0 ∧
    (MeshObj.mk 0 true [(0, 0, 0)] []).verts.length =
      (MeshObj.mk 1 true [(1, 0, 0)] []).verts.length ∧
    numMasked (retargetMask false (MeshObj.mk 0 true [(0, 0, 0)] []).sel)
      (MeshObj.mk 0 true [(0, 0, 0)] []).verts.length ≠ 0 ∧
    execute false false false false 1 1 (fun _ _ => 0)
        (fun _ _ => (none : Option (List Pt)))
        ⟨0, true, [(0, 0, 0)], []⟩ ⟨1, true, [(1, 0, 0)], []⟩
        [⟨2, true, [(1, 1, 1)], []⟩] =
      ⟨.CANCELLED,
        [(.ERROR, "Failed to retarget. Try a different function or radius.")],
        []⟩ :=
  ⟨by decide, by decide, by decide,
    execute_solve_failure false false false false 1 1 (fun _ _ => 0)
      (fun _ _ => none) ⟨0, true, [(0, 0, 0)], []⟩ ⟨1, true, [(1, 0, 0)], []⟩
      [⟨2, true, [(1, 1, 1)], []⟩] (by decide) (by decide) (by decide) rfl⟩

lemma filterMap_append_cons_none {α β : Type} (f : α → Option β)
    (pre post : List α) (t : α) (h : f t = none) :
    (pre ++ t :: post).filterMap f = (pre ++ post).filterMap f := by
  simp [List.filterMap_append, List.filterMap_cons, h]

lemma retargetWrites_skip (k : Pt → Pt → ℚ) (w : List Pt) (srcOid dstOid : ℕ)
    (src_pts : List Pt) (pre post : List MeshObj) (t : MeshObj)
    (ht : t.verts.length = 0) :
    retargetWrites k w srcOid dstOid src_pts (pre ++ t :: post) =
      retargetWrites k w srcOid dstOid src_pts (pre ++ post) := by
  rw [retargetWrites, retargetWrites]
  refine filterMap_append_cons_none _ _ _ _ ?_
  by_cases hC : t.isMesh = false ∨ t.oid = srcOid ∨ t.oid = dstOid
  · simp only [if_pos hC]
  · simp only [if_neg hC, if_pos ht]

/-- C5 counterexample: the dependent target with object id 5 yields zero
points and is skipped while the batch succeeds and target 6 is written,
but the report list is empty — no warning is issued, contrary to the
claim. -/
theorem execute_skip_without_warning :
    (execute false false false false 1 1 (fun _ _ => 0) (fun _ _ => some [])
        ⟨0, true, [(0, 0, 0)], []⟩ ⟨1, true, [(0, 0, 0)], []⟩
        [⟨5, true, [], []⟩, ⟨6, true, [(1, 2, 3)], []⟩]).result =
      .FINISHED ∧
    (execute false false false false 1 1 (fun _ _ => 0) (fun _ _ => some [])
        ⟨0, true, [(0, 0, 0)], []⟩ ⟨1, true, [(0, 0, 0)], []⟩
        [⟨5, true, [], []⟩, ⟨6, true, [(1, 2, 3)], []⟩]).writes =
      [(6, [(0, 0, 0)])] ∧
    (execute false false false false 1 1 (fun _ _ => 0) (fun _ _ => some [])
        ⟨0, true, [(0, 0, 0)], []⟩ ⟨1, true, [(0, 0, 0)], []⟩
        [⟨5, true, [], []⟩, ⟨6, true, [(1, 2, 3)], []⟩]).reports = [] := by
  refine ⟨?_, ?_, ?_⟩ <;> decide

/-- C5 amended: a dependent point set that yields zero points is skipped
silently — no report of any kind is issued — while the remaining dependent
targets are still processed and the invocation as a whole still
succeeds. -/
theorem execute_skips_empty_target (os hq mx inv : Bool) (cl ch : ℕ)
    (k : Pt → Pt → ℚ) (solver : List Pt → List Pt → Option (List Pt))
    (src_obj dst_obj : MeshObj) (pre post : List MeshObj) (t : MeshObj)
    (w : List Pt)
    (h0 : src_obj.verts.length ≠ 0)
    (h1 : src_obj.verts.length = dst_obj.verts.length)
    (h2 : numMasked (retargetMask os src_obj.sel) src_obj.verts.length ≠ 0)
    (hs : solver
        (corrPair mx inv (retargetMask os src_obj.sel)
          (retargetStride hq cl ch (retargetMask os src_obj.sel)
            src_obj.verts.length)
          src_obj.verts dst_obj.verts).1
        (corrPair mx inv (retargetMask os src_obj.sel)
          (retargetStride hq cl ch (retargetMask os src_obj.sel)
            src_obj.verts.length)
          src_obj.verts dst_obj.verts).2 = some w)
    (ht : t.verts.length = 0) :
    execute os hq mx inv cl ch k solver src_obj dst_obj (pre ++ t :: post) =
      ⟨.FINISHED, [],
        retargetWrites k w src_obj.oid dst_obj.oid
          (corrPair mx inv (retargetMask os src_obj.sel)
            (retargetStride hq cl ch (retargetMask os src_obj.sel)
              src_obj.verts.length)
            src_obj.verts dst_obj.verts).1
          (pre ++ post)⟩ := by
  rw [execute]
  have h1x : ¬(src_obj.verts.length ≠ dst_obj.verts.length) := fun hc => hc h1
  simp only [if_neg h0, if_neg h1x, if_neg h2, hs]
  rw [retargetWrites_skip _ _ _ _ _ _ _ _ ht]

/-- Witness for C5 amended: the zero-point target 5 between no targets and
target 6. -/
theorem execute_skips_empty_target_witness :
    (MeshObj.mk 0 true [(0, 0, 0)] []).verts.length ≠ 0 ∧
    numMasked (retargetMask false (MeshObj.mk 0 true [(0, 0, 0)] []).sel)
      (MeshObj.mk 0 true [(0, 0, 0)] []).verts.length ≠ 0 ∧
    (MeshObj.mk 5 true [] []).verts.length = 0 ∧
    execute false false false false 1 1 (fun _ _ => 0) (fun _ _ => some [])
        ⟨0, true, [(0, 0, 0)], []⟩ ⟨1, true, [(0, 0, 0)], []⟩
        ([] ++ ⟨5, true, [], []⟩ :: [⟨6, true, [(1, 2, 3)], []⟩]) =
      ⟨.FINISHED, [],
        retargetWrites (fun _ _ => 0) [] 0 1
          (corrPair false false (retargetMask false []) (retargetStride false 1 1 (retargetMask false []) 1)
            [(0, 0, 0)] [(0, 0, 0)]).1
          ([] ++ [⟨6, true, [(1, 2, 3)], []⟩])⟩ :=
  ⟨by decide, by decide, by decide,
    execute_skips_empty_target false false false false 1 1 (fun _ _ => 0)
      (fun _ _ => some []) ⟨0, true, [(0, 0, 0)], []⟩ ⟨1, true, [(0, 0, 0)], []⟩
      [] [⟨6, true, [(1, 2, 3)], []⟩] ⟨5, true, [], []⟩ []
      (by decide) (by decide) (by decide) rfl (by decide)⟩

lemma mem_retargetWrites {k : Pt → Pt → ℚ} {w : List Pt} {srcOid dstOid : ℕ}
    {src_pts : List Pt} {selected : List MeshObj} {wr : ℕ × List Pt}
    (hw : wr ∈ retargetWrites k w srcOid dstOid src_pts selected) :
    wr.1 ≠ srcOid ∧ wr.1 ≠ dstOid ∧
      ∃ o ∈ selected, o.oid = wr.1 ∧ o.isMesh = true := by
  rw [retargetWrites, List.mem_filterMap] at hw
  obtain ⟨o, ho, hfo⟩ := hw
  by_cases hC : o.isMesh = false ∨ o.oid = srcOid ∨ o.oid = dstOid
  · rw [if_pos hC] at hfo
    exact absurd hfo (by simp)
  · rw [if_neg hC] at hfo
    by_cases h0 : o.verts.length = 0
    · rw [if_pos h0] at hfo
      exact absurd hfo (by simp)
    · rw [if_neg h0] at hfo
      have hwr : wr = (o.oid, evalNewPts o.verts src_pts k w) :=
        (Option.some_inj.mp hfo).symm
      push_neg at hC
      obtain ⟨hm, hsrc, hdst⟩ := hC
      have hmesh : o.isMesh = true := by
        cases hmo : o.isMesh
        · exact absurd hmo hm
        · rfl
      subst hwr
      exact ⟨hsrc, hdst, o, ho, rfl, hmesh⟩

/-- C10: every write-back of an invocation targets a selected mesh object
whose identity differs from both the source and the destination object;
the source, the destination and non-mesh selected objects are never
written. -/
theorem execute_writes_only_dependents (os hq mx inv : Bool) (cl ch : ℕ)
    (k : Pt → Pt → ℚ) (solver : List Pt → List Pt → Option (List Pt))
    (src_obj dst_obj : MeshObj) (selected : List MeshObj) (wr : ℕ × List Pt)
    (hw : wr ∈ (execute os hq mx inv cl ch k solver src_obj dst_obj selected).writes) :
    wr.1 ≠ src_obj.oid ∧ wr.1 ≠ dst_obj.oid ∧
      ∃ o ∈ selected, o.oid = wr.1 ∧ o.isMesh = true := by
  simp only [execute] at hw
  split at hw
  · simp at hw
  · split at hw
    · simp at hw
    · split at hw
      · simp at hw
      · split at hw
        · simp at hw
        · exact mem_retargetWrites hw

/-- Witness for C10: the write to object 6 produced by a successful
invocation. -/
theorem execute_writes_only_dependents_witness :
    ((6 : ℕ), [((0 : ℚ), (0 : ℚ), (0 : ℚ))]).1 ≠ (MeshObj.mk 0 true [(0, 0, 0)] []).oid ∧
    ((6 : ℕ), [((0 : ℚ), (0 : ℚ), (0 : ℚ))]).1 ≠ (MeshObj.mk 1 true [(0, 0, 0)] []).oid ∧
    ∃ o ∈ [MeshObj.mk 5 true [] [], MeshObj.mk 6 true [(1, 2, 3)] []],
      o.oid = ((6 : ℕ), [((0 : ℚ), (0 : ℚ), (0 : ℚ))]).1 ∧ o.isMesh = true :=
  execute_writes_only_dependents false false false false 1 1 (fun _ _ => 0)
    (fun _ _ => some []) ⟨0, true, [(0, 0, 0)], []⟩ ⟨1, true, [(0, 0, 0)], []⟩
    [⟨5, true, [], []⟩, ⟨6, true, [(1, 2, 3)], []⟩]
    (6, [(0, 0, 0)]) (by decide)

/-! Mirror accumulator sharing. -/

lemma applyMask_some_length (m : List Bool) :
    ∀ (v1 v2 : List Pt), v1.length = v2.length →
      (applyMask v1 (some m)).length = (applyMask v2 (some m)).length := by
  induction m with
  | nil =>
    intro v1 v2 h
    cases v1 <;> cases v2 <;> simp [applyMask]
  | cons c m ih =>
    intro v1 v2 h
    cases v1 with
    | nil =>
      cases v2 with
      | nil => rfl
      | cons b t2 => simp at h
    | cons a t1 =>
      cases v2 with
      | nil => simp at h
      | cons b t2 =>
        simp only [List.length_cons, Nat.add_right_cancel_iff] at h
        have hrec := ih t1 t2 h
        cases c <;> simpa [applyMask] using hrec

lemma applyMask_length_eq (mask : Option (List Bool)) (v1 v2 : List Pt)
    (h : v1.length = v2.length) :
    (applyMask v1 mask).length = (applyMask v2 mask).length := by
  cases mask with
  | none => simpa [applyMask] using h
  | some m => exact applyMask_some_length m v1 v2 h

lemma samplePair_mirror_eq (mask : Option (List Bool)) (stride : ℕ)
    (srcVerts dstVerts : List Pt) :
    samplePair true mask stride srcVerts dstVerts =
      (everyNth (applyMask srcVerts mask) stride ++
        (mirrorIdxs (everyNth (applyMask srcVerts mask) stride)).map
          (fun i =>
            mirrorX ((everyNth (applyMask srcVerts mask) stride).getD i (0, 0, 0))),
       if (mirrorIdxs (everyNth (applyMask srcVerts mask) stride)).isEmpty then
         everyNth (applyMask dstVerts mask) stride
       else
         everyNth (applyMask dstVerts mask) stride ++
           (mirrorIdxs (everyNth (applyMask srcVerts mask) stride)).map
             (fun i =>
               mirrorX ((everyNth (applyMask dstVerts mask) stride).getD i (0, 0, 0)))) := by
  by_cases hI : (mirrorIdxs (everyNth (applyMask srcVerts mask) stride)).isEmpty = true
  · simp [samplePair, get_mesh_points, hI]
  · simp [samplePair, get_mesh_points, hI]

/-- C8: with X mirroring enabled, one accumulator serves both samples of a
correspondence pair: a single index list describes the mirrored rows
appended to the source sample and to the destination sample, so every
mirrored point occupies the same row index in both point sets, and the two
point sets have equal cardinality after mirroring. -/
theorem samplePair_mirror_shared (mask : Option (List Bool)) (stride : ℕ)
    (srcVerts dstVerts : List Pt) (hs : 1 ≤ stride)
    (hlen : srcVerts.length = dstVerts.length) :
    ∃ idxs : List ℕ,
      (samplePair true mask stride srcVerts dstVerts).1 =
        everyNth (applyMask srcVerts mask) stride ++
          idxs.map (fun i =>
            mirrorX ((everyNth (applyMask srcVerts mask) stride).getD i (0, 0, 0))) ∧
      (samplePair true mask stride srcVerts dstVerts).2 =
        everyNth (applyMask dstVerts mask) stride ++
          idxs.map (fun i =>
            mirrorX ((everyNth (applyMask dstVerts mask) stride).getD i (0, 0, 0))) ∧
      (samplePair true mask stride srcVerts dstVerts).1.length =
        (samplePair true mask stride srcVerts dstVerts).2.length := by
  have hbase := applyMask_length_eq mask srcVerts dstVerts hlen
  have hstr := everyNth_length_eq stride hs _ _ hbase
  rw [samplePair_mirror_eq]
  by_cases hI : (mirrorIdxs (everyNth (applyMask srcVerts mask) stride)).isEmpty = true
  · have hnil : mirrorIdxs (everyNth (applyMask srcVerts mask) stride) = [] := by
      rwa [List.isEmpty_iff] at hI
    refine ⟨[], ?_, ?_, ?_⟩
    · simp [hnil]
    · simp [hI]
    · simp [hnil, hI, hstr]
  · refine ⟨mirrorIdxs (everyNth (applyMask srcVerts mask) stride), rfl, ?_, ?_⟩
    · simp [hI]
    · simp [hI, hstr]

/-- Witness for C8: one source point off the mirror plane against one
destination point; both samples get one mirrored row at row index one. -/
theorem samplePair_mirror_shared_witness :
    1 ≤ 1 ∧
    ([((1 : ℚ), (0 : ℚ), (0 : ℚ))] : List Pt).length =
      ([((2 : ℚ), (3 : ℚ), (4 : ℚ))] : List Pt).length ∧
    (∃ idxs : List ℕ,
      (samplePair true none 1 [((1 : ℚ), (0 : ℚ), (0 : ℚ))]
          [((2 : ℚ), (3 : ℚ), (4 : ℚ))]).1 =
        everyNth (applyMask [((1 : ℚ), (0 : ℚ), (0 : ℚ))] none) 1 ++
          idxs.map (fun i =>
            mirrorX ((everyNth (applyMask [((1 : ℚ), (0 : ℚ), (0 : ℚ))] none) 1).getD i (0, 0, 0))) ∧
      (samplePair true none 1 [((1 : ℚ), (0 : ℚ), (0 : ℚ))]
          [((2 : ℚ), (3 : ℚ), (4 : ℚ))]).2 =
        everyNth (applyMask [((2 : ℚ), (3 : ℚ), (4 : ℚ))] none) 1 ++
          idxs.map (fun i =>
            mirrorX ((everyNth (applyMask [((2 : ℚ), (3 : ℚ), (4 : ℚ))] none) 1).getD i (0, 0, 0))) ∧
      (samplePair true none 1 [((1 : ℚ), (0 : ℚ), (0 : ℚ))]
          [((2 : ℚ), (3 : ℚ), (4 : ℚ))]).1.length =
        (samplePair true none 1 [((1 : ℚ), (0 : ℚ), (0 : ℚ))]
          [((2 : ℚ), (3 : ℚ), (4 : ℚ))]).2.length) :=
  ⟨by decide, by decide,
    samplePair_mirror_shared none 1 [((1 : ℚ), (0 : ℚ), (0 : ℚ))]
      [((2 : ℚ), (3 : ℚ), (4 : ℚ))] (by decide) (by decide)⟩

end Gret
